import Mathlib

/-!
Verification of the stablecoin-peg-monitor pipeline.

This file shallowly embeds the data pipeline of the repository:

* the Snowflake DDL in `scripts/utils/setup_snowflake_tables.py` and the
  identical statements re-issued by `scripts/utils/load_real_data.py`
  (the `stablecoin_peg_health` view and the `stablecoin_peg_zscore` table);
* the Chainlink fetch layer in `scripts/fetch_chainlink_price.py`
  (`CHAINLINK_FEEDS`, `TOKEN_SYMBOLS`, `fetch_token_price`,
  `fetch_all_chainlink_prices`);
* the load step in `scripts/utils/load_real_data.py` and the Dagster op in
  `dagster_pipeline/ops/chainlink_price_op.py` (`write_pandas` with
  `overwrite=False`, the column rename, the view refresh);
* the query builders of the Streamlit dashboard
  (`streamlit_app/app.py`, `load_peg_health_data` / `load_zscore_data`).

SQL DOUBLE values are modelled as rationals, SQL NULL as `Option`.
The Snowflake `STDDEV` (sample standard deviation) applies a square root to
the sample variance; the square root is kept abstract as a function
parameter `sq : ℚ → ℚ`, which both the embedded pipeline and the
specification-side aggregates share, so every statement below is about
which rows feed the aggregates and how the guards behave, independent of
the numeric root.
-/

/-! ### SQL value semantics: NULL-propagating arithmetic and comparisons -/

/-- A nullable SQL DOUBLE value. -/
abbrev SqlVal := Option ℚ

/-- SQL subtraction: NULL-propagating. -/
def osub : SqlVal → SqlVal → SqlVal
  | some a, some b => some (a - b)
  | _, _ => none

/-- SQL division: NULL-propagating. -/
def odiv : SqlVal → SqlVal → SqlVal
  | some a, some b => some (a / b)
  | _, _ => none

/-- SQL ABS: NULL-propagating. -/
def oabs : SqlVal → SqlVal
  | some a => some |a|
  | none => none

/-- SQL NULLIF(v, c): NULL when v = c, otherwise v. -/
def nullif (v : SqlVal) (c : ℚ) : SqlVal :=
  match v with
  | some a => if a = c then none else some a
  | none => none

/-- SQL `v > c` as used in a CASE condition: a NULL comparison is not true. -/
def ogt (v : SqlVal) (c : ℚ) : Bool :=
  match v with
  | some a => decide (c < a)
  | none => false

/-- Sum of a list of rationals. -/
def qsum (l : List ℚ) : ℚ := l.foldr (fun x acc => x + acc) 0

/-- SQL AVG over a window frame: NULL on an empty frame. -/
def sqlAvg (l : List ℚ) : SqlVal :=
  if l.length = 0 then none else some (qsum l / (l.length : ℚ))

/-- SQL STDDEV (sample standard deviation; in Snowflake STDDEV = STDDEV_SAMP)
over a window frame: NULL when the frame has at most one row, otherwise the
square root `sq` of the sample variance. -/
def sqlStddev (sq : ℚ → ℚ) (l : List ℚ) : SqlVal :=
  if l.length ≤ 1 then none
  else some (sq (qsum (l.map (fun x => (x - qsum l / (l.length : ℚ)) ^ 2)) / ((l.length : ℚ) - 1)))

/-! ### The warehouse schema

`CHAINLINK_PRICES (TIMESTAMP BIGINT, TOKEN VARCHAR, PRICE DOUBLE,
DEVIATION_FROM_1 DOUBLE, LOADED_AT ...)`; `LOADED_AT` is a server-side
default timestamp and plays no role in any claim, so it is omitted. -/

structure ChainlinkPriceRow where
  timestamp : Int
  token : String
  price : ℚ
  deviation_from_1 : ℚ
deriving Repr, DecidableEq

/-- A row of the `stablecoin_peg_health` view. -/
structure PegHealthRow where
  timestamp : Int
  token : String
  price : ℚ
  deviation_from_peg : ℚ
  abs_deviation_from_peg : ℚ
  deviation_from_peg_pct : ℚ
  peg_status : String
deriving Repr, DecidableEq

/-- The SELECT list of the `stablecoin_peg_health` view, per source row:
`PRICE - 1.0 AS DEVIATION_FROM_PEG`, `ABS(PRICE - 1.0)`, `(PRICE - 1.0)*100`,
and the CASE classification with thresholds 0.001 and 0.005. -/
def pegHealthRow (r : ChainlinkPriceRow) : PegHealthRow :=
  { timestamp := r.timestamp
    token := r.token
    price := r.price
    deviation_from_peg := r.price - 1
    abs_deviation_from_peg := |r.price - 1|
    deviation_from_peg_pct := (r.price - 1) * 100
    peg_status :=
      if |r.price - 1| ≤ 1/1000 then "healthy"
      else if |r.price - 1| ≤ 5/1000 then "warning"
      else "critical" }

/-- The `stablecoin_peg_health` view over the `CHAINLINK_PRICES` table.
The ORDER BY of the view only affects presentation order and is not modelled. -/
def stablecoin_peg_health (table : List ChainlinkPriceRow) : List PegHealthRow :=
  table.map pegHealthRow

/-- A row of the `stablecoin_peg_zscore` table. -/
structure ZscoreRow where
  timestamp : Int
  token : String
  price : ℚ
  deviation_from_peg : ℚ
  rolling_mean_24h : SqlVal
  rolling_stddev_24h : SqlVal
  zscore : SqlVal
  zscore_status : String
deriving Repr, DecidableEq

/-- The clause PARTITION BY TOKEN: the rows of the view sharing the given token. -/
def tokenPartition (peg : List PegHealthRow) (tok : String) : List PegHealthRow :=
  peg.filter (fun s => s.token == tok)

/-- The clause ORDER BY TIMESTAMP RANGE BETWEEN 86400 PRECEDING AND CURRENT ROW:
the frame of a row at timestamp `t` contains the partition rows whose
TIMESTAMP value lies in `[t - 86400, t]` (a value-based RANGE frame). -/
def rangeFrame (part : List PegHealthRow) (t : Int) : List PegHealthRow :=
  part.filter (fun s => decide (t - 86400 ≤ s.timestamp) && decide (s.timestamp ≤ t))

/-- One output row of the `stablecoin_peg_zscore` CTAS, computed for the view
row `p` against the full view contents `peg`:
`AVG(...) OVER (...)`, `STDDEV(...) OVER (...)`,
`CASE WHEN ROLLING_STDDEV_24H > 0 THEN (DEVIATION_FROM_PEG - ROLLING_MEAN_24H)
/ ROLLING_STDDEV_24H ELSE 0 END AS ZSCORE`, and the ZSCORE_STATUS CASE using
`NULLIF(ROLLING_STDDEV_24H, 0)` with thresholds 2 and 1. -/
def zscoreRowOf (sq : ℚ → ℚ) (peg : List PegHealthRow) (p : PegHealthRow) : ZscoreRow :=
  let frame := rangeFrame (tokenPartition peg p.token) p.timestamp
  let devs := frame.map (fun s => s.deviation_from_peg)
  let mean := sqlAvg devs
  let sd := sqlStddev sq devs
  let zscore : SqlVal :=
    if ogt sd 0 then odiv (osub (some p.deviation_from_peg) mean) sd else some 0
  let statExpr := oabs (odiv (osub (some p.deviation_from_peg) mean) (nullif sd 0))
  let status :=
    if ogt statExpr 2 then "outlier"
    else if ogt statExpr 1 then "unusual"
    else "normal"
  { timestamp := p.timestamp
    token := p.token
    price := p.price
    deviation_from_peg := p.deviation_from_peg
    rolling_mean_24h := mean
    rolling_stddev_24h := sd
    zscore := zscore
    zscore_status := status }

/-- The `stablecoin_peg_zscore` table built by `CREATE OR REPLACE TABLE ... AS`
from the `stablecoin_peg_health` view. -/
def stablecoin_peg_zscore (sq : ℚ → ℚ) (table : List ChainlinkPriceRow) : List ZscoreRow :=
  (stablecoin_peg_health table).map (zscoreRowOf sq (stablecoin_peg_health table))

/-- Specification-side window: the DEVIATION_FROM_PEG values of exactly those
view rows with the given TOKEN whose TIMESTAMP lies in `[t - 86400, t]`. -/
def pegWindowDevs (table : List ChainlinkPriceRow) (tok : String) (t : Int) : List ℚ :=
  ((stablecoin_peg_health table).filter
      (fun h => (h.token == tok) &&
        (decide (t - 86400 ≤ h.timestamp) && decide (h.timestamp ≤ t)))).map
    (fun h => h.deviation_from_peg)

/-! ### The Chainlink fetch layer (`scripts/fetch_chainlink_price.py`)

A contract read (the `decimals()` and `latestRoundData()` calls of
`fetch_token_price`) either yields a decimals count and a raw integer
answer, or fails with some exception; the exact exception carries no
information used by the code, so it is a single constructor. The wall
clock value and the per-token responses are an environment parameter. -/

/-- Outcome of the two contract calls inside `fetch_token_price`. -/
inductive ContractResult where
  | ok (decimals : Nat) (answer : Int)
  | err
deriving Repr, DecidableEq

/-- One fetched price record: the dictionary built by `fetch_token_price` with
exactly the keys timestamp, token_symbol, price, deviation_from_peg; also the
column set (in order) of the DataFrame built by `fetch_all_chainlink_prices`. -/
structure PriceData where
  timestamp : Int
  token_symbol : String
  price : ℚ
  deviation_from_peg : ℚ
deriving Repr, DecidableEq

/-- Embedding of `fetch_token_price`: everything is inside one try/except that returns
None, so the embedding is a total function into `Option`. Despite the
docstring text "Raises: RuntimeError", no path raises. The decoded price is
`float(answer) / 10 ** decimals`; a price `<= 0` yields None; otherwise the
record carries `deviation_from_peg = price - 1.0` and the current UTC
timestamp. -/
def fetch_token_price (now : Int) (token_symbol : String) (resp : ContractResult) :
    Option PriceData :=
  match resp with
  | .err => none
  | .ok decimals answer =>
    let price_float : ℚ := (answer : ℚ) / 10 ^ decimals
    if price_float ≤ 0 then none
    else some { timestamp := now
                token_symbol := token_symbol
                price := price_float
                deviation_from_peg := price_float - 1 }

/-- The `CHAINLINK_FEEDS` dictionary: the two hardcoded Chainlink feed addresses. -/
def CHAINLINK_FEEDS : List (String × String) :=
  [("USDC", "0x8fFfFfd4AfB6115b954Bd326cbe7B4BA576818f6"),
   ("USDT", "0x3E7d1eAB13ad0104d2750B8863b489D65364e32D")]

/-- The `TOKEN_SYMBOLS` list: the tokens the fetch loop iterates over. -/
def TOKEN_SYMBOLS : List String := ["USDC", "USDT"]

/-- Dictionary membership test `token_symbol in CHAINLINK_FEEDS` plus lookup
`CHAINLINK_FEEDS[token_symbol]`. -/
def lookupFeed (tok : String) : Option String :=
  (CHAINLINK_FEEDS.find? (fun p => p.1 == tok)).map (fun p => p.2)

/-- The environment of one `fetch_all_chainlink_prices` invocation:
whether `get_web3_connection` succeeds, the wall clock, and the outcome of
the contract reads for each token. -/
structure FetchEnv where
  web3_ok : Bool
  now : Int
  respOf : String → ContractResult

/-- The errors `fetch_all_chainlink_prices` can raise: the
ValueError/ConnectionError re-raised from `get_web3_connection`, or the
RuntimeError "Failed to fetch price data for any token". -/
inductive FetchError where
  | connError
  | runtimeError
deriving Repr, DecidableEq

/-- The `for token_symbol in TOKEN_SYMBOLS` loop of
`fetch_all_chainlink_prices`. It returns the log of contract reads issued
(one `(token, feed_address)` entry per attempted fetch) and `all_data`, the
successfully fetched records in loop order. A token missing from
`CHAINLINK_FEEDS` is skipped; a failed fetch appends nothing and the loop
continues with the next token; nothing is ever re-attempted. -/
def fetchTokensLoop (env : FetchEnv) : List String → List (String × String) × List PriceData
  | [] => ([], [])
  | t :: rest =>
    match lookupFeed t with
    | none => fetchTokensLoop env rest
    | some addr =>
      let r := fetch_token_price env.now t (env.respOf t)
      let tail := fetchTokensLoop env rest
      ((t, addr) :: tail.1,
       match r with
       | some d => d :: tail.2
       | none => tail.2)

/-- Embedding of `df.sort_values("token_symbol")`: ascending sort by token symbol. -/
def sortByToken (l : List PriceData) : List PriceData :=
  List.insertionSort (fun a b => a.token_symbol ≤ b.token_symbol) l

/-- Embedding of `fetch_all_chainlink_prices`, paired with the log of contract reads it
issued. On connection failure the error propagates before any read; when
`all_data` is empty a RuntimeError is raised; otherwise the DataFrame is
reordered to the fixed column list (the `PriceData` fields, in order) and
sorted ascending by token_symbol with the index reset. -/
def fetch_all_run (env : FetchEnv) :
    List (String × String) × Except FetchError (List PriceData) :=
  if env.web3_ok then
    let loop := fetchTokensLoop env TOKEN_SYMBOLS
    if loop.2.isEmpty then (loop.1, .error .runtimeError)
    else (loop.1, .ok (sortByToken loop.2))
  else ([], .error .connError)

/-! ### The load step (`scripts/utils/load_real_data.py`) and the Dagster op
(`dagster_pipeline/ops/chainlink_price_op.py`) -/

/-- The pandas rename/reshape of `load_real_chainlink_data`:
`token_symbol` becomes `TOKEN`, `deviation_from_peg` becomes
`DEVIATION_FROM_1`, and the columns are re-selected as
`[TIMESTAMP, TOKEN, PRICE, DEVIATION_FROM_1]`. -/
def normalizeRow (d : PriceData) : ChainlinkPriceRow :=
  { timestamp := d.timestamp
    token := d.token_symbol
    price := d.price
    deviation_from_1 := d.deviation_from_peg }

/-- Embedding of `write_pandas(conn, df, table_name="CHAINLINK_PRICES", ...,
auto_create_table=False, overwrite=False)`: the rows are appended to the
table as they are; no key is matched and no existing row is replaced
(the source comments this call as "append mode - adds new records"). -/
def write_pandas_append (table rows : List ChainlinkPriceRow) : List ChainlinkPriceRow :=
  table ++ rows

/-- The steps `load_real_chainlink_data` performs, in the order it
performs them. `store` records whether `write_pandas` reported success;
`deriveViews` is the pair of `CREATE OR REPLACE` statements recreating the
`stablecoin_peg_health` view and the `stablecoin_peg_zscore` table. -/
inductive LoadEvent where
  | fetch
  | normalize
  | store (success : Bool)
  | deriveViews
deriving Repr, DecidableEq

/-- Embedding of `load_real_chainlink_data` against warehouse contents `wh`; `writeOk` is
whether `write_pandas` reports success. Returns the event trace, the new
`CHAINLINK_PRICES` contents, and whether the derived view/table were
recreated. A fetch exception propagates before any step is traced; an empty
DataFrame returns after the fetch; on write success (and only then) the
derived view and table are recreated from the just-written contents. -/
def load_real_chainlink_data (env : FetchEnv) (wh : List ChainlinkPriceRow)
    (writeOk : Bool) : List LoadEvent × List ChainlinkPriceRow × Bool :=
  match (fetch_all_run env).2 with
  | .error _ => ([], wh, false)
  | .ok df =>
    if df.isEmpty then ([LoadEvent.fetch], wh, false)
    else
      let renamed := df.map normalizeRow
      if writeOk then
        ([LoadEvent.fetch, LoadEvent.normalize, LoadEvent.store true,
          LoadEvent.deriveViews],
         write_pandas_append wh renamed, true)
      else
        ([LoadEvent.fetch, LoadEvent.normalize, LoadEvent.store false], wh, false)

/-- The outcomes of `fetch_chainlink_price_op`: the early
`{"rows": 0, "status": "empty"}` Output when the DataFrame is empty, the
success Output, or a re-raised exception. -/
inductive OpResult where
  | emptyOut
  | success (rows : Nat)
  | failure
deriving Repr, DecidableEq

/-- Embedding of `fetch_chainlink_price_op`: fetches, returns the "empty" Output when
`df.empty`, otherwise renames and writes; a fetch or write failure raises. -/
def fetch_chainlink_price_op (env : FetchEnv) (writeOk : Bool) : OpResult :=
  match (fetch_all_run env).2 with
  | .error _ => .failure
  | .ok df =>
    if df.isEmpty then .emptyOut
    else if writeOk then .success df.length
    else .failure

/-! ### The dashboard query builders (`streamlit_app/app.py`)

A query as handed to the warehouse driver: the SQL text and the list of
bound parameters. Both loaders call `pd.read_sql(query, conn)` with no
`params` argument, so the parameter list is always empty; the optional token
filter is spliced into the text with an f-string. Whitespace in the literal
SQL is normalized to single spaces; `\x27` is the single-quote character. -/

structure SqlQuery where
  text : String
  params : List String
deriving Repr, DecidableEq

/-- The fixed SELECT prefix of `load_peg_health_data`. -/
def pegHealthSelect : String :=
  "SELECT TIMESTAMP, TOKEN, PRICE, DEVIATION_FROM_PEG, DEVIATION_FROM_PEG_PCT, PEG_STATUS FROM stablecoin_peg_health"

/-- The query built by `load_peg_health_data(token)`. -/
def load_peg_health_query (token : Option String) : SqlQuery :=
  { text :=
      pegHealthSelect ++
        (match token with
         | some t => " WHERE TOKEN = \x27" ++ t ++ "\x27"
         | none => "") ++
        " ORDER BY TIMESTAMP DESC LIMIT 1000"
    params := [] }

/-- The fixed SELECT prefix of `load_zscore_data`. -/
def zscoreSelect : String :=
  "SELECT TIMESTAMP, TOKEN, PRICE, DEVIATION_FROM_PEG, ROLLING_MEAN_24H, ROLLING_STDDEV_24H, ZSCORE, ZSCORE_STATUS FROM stablecoin_peg_zscore"

/-- The query built by `load_zscore_data(token)`. -/
def load_zscore_query (token : Option String) : SqlQuery :=
  { text :=
      zscoreSelect ++
        (match token with
         | some t => " WHERE TOKEN = \x27" ++ t ++ "\x27"
         | none => "") ++
        " ORDER BY TIMESTAMP DESC LIMIT 5000"
    params := [] }

/-! ### Helper lemmas -/

lemma mem_peg_health {table : List ChainlinkPriceRow} {r : PegHealthRow}
    (hr : r ∈ stablecoin_peg_health table) :
    ∃ s ∈ table, r = pegHealthRow s := by
  obtain ⟨s, hs, h⟩ := List.mem_map.1 hr
  exact ⟨s, hs, h.symm⟩

lemma mem_zscore {sq : ℚ → ℚ} {table : List ChainlinkPriceRow} {r : ZscoreRow}
    (hr : r ∈ stablecoin_peg_zscore sq table) :
    ∃ p ∈ stablecoin_peg_health table,
      r = zscoreRowOf sq (stablecoin_peg_health table) p := by
  obtain ⟨p, hp, h⟩ := List.mem_map.1 hr
  exact ⟨p, hp, h.symm⟩

lemma fetch_token_price_token {now : Int} {tok : String} {resp : ContractResult}
    {d : PriceData} (h : fetch_token_price now tok resp = some d) :
    d.token_symbol = tok := by
  cases resp with
  | err => simp [fetch_token_price] at h
  | ok decimals answer =>
    simp only [fetch_token_price] at h
    split at h
    · simp at h
    · cases h
      rfl

/-- Unfolds the fetch loop over the two configured tokens: the contract-read
log is the fixed `(token, feed)` list and the collected data is the
concatenation of the per-token optional results. -/
lemma fetchTokensLoop_eq (env : FetchEnv) :
    fetchTokensLoop env TOKEN_SYMBOLS =
      ([("USDC", "0x8fFfFfd4AfB6115b954Bd326cbe7B4BA576818f6"),
        ("USDT", "0x3E7d1eAB13ad0104d2750B8863b489D65364e32D")],
       (fetch_token_price env.now "USDC" (env.respOf "USDC")).toList ++
         (fetch_token_price env.now "USDT" (env.respOf "USDT")).toList) := by
  show (match lookupFeed "USDC" with
    | none => fetchTokensLoop env ["USDT"]
    | some addr =>
      let r := fetch_token_price env.now "USDC" (env.respOf "USDC")
      let tail := fetchTokensLoop env ["USDT"]
      ((("USDC", addr)) :: tail.1,
        match r with
        | some d => d :: tail.2
        | none => tail.2)) = _
  have h1 : lookupFeed "USDC" = some "0x8fFfFfd4AfB6115b954Bd326cbe7B4BA576818f6" := rfl
  have h2 : lookupFeed "USDT" = some "0x3E7d1eAB13ad0104d2750B8863b489D65364e32D" := rfl
  simp only [fetchTokensLoop, h1, h2]
  cases fetch_token_price env.now "USDC" (env.respOf "USDC") <;>
    cases fetch_token_price env.now "USDT" (env.respOf "USDT") <;>
      simp [Option.toList]

lemma sortByToken_perm (l : List PriceData) : (sortByToken l).Perm l :=
  List.perm_insertionSort _ l

/-- On a working connection, `fetch_all_run` either raises the RuntimeError
(empty loop result) or returns the sorted loop result. -/
lemma fetch_all_run_ok_eq {env : FetchEnv} (hw : env.web3_ok = true)
    (he : ¬ ((fetchTokensLoop env TOKEN_SYMBOLS).2.isEmpty = true)) :
    fetch_all_run env =
      ((fetchTokensLoop env TOKEN_SYMBOLS).1,
       .ok (sortByToken (fetchTokensLoop env TOKEN_SYMBOLS).2)) := by
  simp [fetch_all_run, hw, he]

lemma fetch_all_run_empty_eq {env : FetchEnv} (hw : env.web3_ok = true)
    (he : (fetchTokensLoop env TOKEN_SYMBOLS).2.isEmpty = true) :
    fetch_all_run env =
      ((fetchTokensLoop env TOKEN_SYMBOLS).1, .error .runtimeError) := by
  simp [fetch_all_run, hw, he]

lemma fetch_all_run_conn_eq {env : FetchEnv} (hw : ¬ (env.web3_ok = true)) :
    fetch_all_run env = ([], .error .connError) := by
  simp [fetch_all_run, hw]

lemma fetch_ok_ne_nil {env : FetchEnv} {df : List PriceData}
    (h : (fetch_all_run env).2 = .ok df) : df ≠ [] := by
  by_cases hw : env.web3_ok
  · by_cases he : (fetchTokensLoop env TOKEN_SYMBOLS).2.isEmpty
    · rw [fetch_all_run_empty_eq hw he] at h
      exact absurd h (by simp)
    · rw [fetch_all_run_ok_eq hw he] at h
      obtain rfl : sortByToken (fetchTokensLoop env TOKEN_SYMBOLS).2 = df :=
        Except.ok.inj h
      intro hnil
      have hlen := (sortByToken_perm (fetchTokensLoop env TOKEN_SYMBOLS).2).length_eq
      rw [hnil] at hlen
      simp only [List.length_nil] at hlen
      exact he (List.isEmpty_iff_length_eq_zero.mpr hlen.symm)
  · rw [fetch_all_run_conn_eq hw] at h
    exact absurd h (by simp)

/-! ### Claim theorems -/

/-- Claim C2: every row of the `stablecoin_peg_health` view has
`DEVIATION_FROM_PEG = PRICE - 1.0`, and `PEG_STATUS` is `healthy` iff
`|PRICE - 1.0| <= 0.001`, `warning` iff `0.001 < |PRICE - 1.0| <= 0.005`,
and `critical` otherwise (iff `0.005 < |PRICE - 1.0|`). -/
theorem C2_peg_health_classification (table : List ChainlinkPriceRow) (r : PegHealthRow)
    (hr : r ∈ stablecoin_peg_health table) :
    r.deviation_from_peg = r.price - 1 ∧
    (r.peg_status = "healthy" ↔ |r.price - 1| ≤ 1/1000) ∧
    (r.peg_status = "warning" ↔ 1/1000 < |r.price - 1| ∧ |r.price - 1| ≤ 5/1000) ∧
    (r.peg_status = "critical" ↔ 5/1000 < |r.price - 1|) := by
  obtain ⟨s, hs, rfl⟩ := mem_peg_health hr
  have hstat : (pegHealthRow s).peg_status =
      (if |s.price - 1| ≤ 1/1000 then "healthy"
       else if |s.price - 1| ≤ 5/1000 then "warning" else "critical") := rfl
  have hprice : (pegHealthRow s).price = s.price := rfl
  refine ⟨rfl, ?_, ?_, ?_⟩ <;> rw [hstat, hprice] <;> split_ifs with h1 h2
  · exact iff_of_true rfl h1
  · exact iff_of_false (by decide) h1
  · exact iff_of_false (by decide) h1
  · exact iff_of_false (by decide) (fun hc => absurd h1 (not_le.mpr hc.1))
  · exact iff_of_true rfl ⟨not_le.mp h1, h2⟩
  · exact iff_of_false (by decide) (fun hc => h2 hc.2)
  · exact iff_of_false (by decide) (not_lt.mpr (h1.trans (by norm_num)))
  · exact iff_of_false (by decide) (not_lt.mpr h2)
  · exact iff_of_true rfl (not_le.mp h2)

/-- Claim C2 witness: a concrete on-peg row is classified `healthy` and its
deviation column equals `PRICE - 1.0`. -/
theorem C2_witness :
    (pegHealthRow ⟨0, "USDC", 1, 0⟩).deviation_from_peg =
      (pegHealthRow ⟨0, "USDC", 1, 0⟩).price - 1 ∧
    (pegHealthRow ⟨0, "USDC", 1, 0⟩).peg_status = "healthy" := by
  have hmem : pegHealthRow ⟨0, "USDC", 1, 0⟩ ∈
      stablecoin_peg_health [⟨0, "USDC", 1, 0⟩] := by
    exact List.mem_map.2 ⟨_, List.mem_singleton.mpr rfl, rfl⟩
  have h := C2_peg_health_classification [⟨0, "USDC", 1, 0⟩] _ hmem
  exact ⟨h.1, h.2.1.mpr (by norm_num [pegHealthRow])⟩

/-- Claim C9: `fetch_token_price` never raises: it is total, returning
either None or a record with `price > 0`,
`deviation_from_peg = price - 1.0` (hence `> -1`), the current timestamp
and the requested token symbol. -/
theorem C9_fetch_token_price_total (now : Int) (tok : String) (resp : ContractResult) :
    fetch_token_price now tok resp = none ∨
    ∃ d, fetch_token_price now tok resp = some d ∧ 0 < d.price ∧
      d.deviation_from_peg = d.price - 1 ∧ -1 < d.deviation_from_peg ∧
      d.timestamp = now ∧ d.token_symbol = tok := by
  cases resp with
  | err => exact Or.inl rfl
  | ok decimals answer =>
    by_cases h : ((answer : ℚ) / 10 ^ decimals) ≤ 0
    · exact Or.inl (by simp [fetch_token_price, h])
    · push_neg at h
      have hn : ¬ ((answer : ℚ) / 10 ^ decimals ≤ 0) := not_le.mpr h
      refine Or.inr ⟨⟨now, tok, (answer : ℚ) / 10 ^ decimals,
        (answer : ℚ) / 10 ^ decimals - 1⟩, ?_, h, rfl, ?_, rfl, rfl⟩
      · simp [fetch_token_price, hn]
      · show (-1 : ℚ) < (answer : ℚ) / 10 ^ decimals - 1
        linarith

/-- A concrete `(TIMESTAMP, TOKEN)` duplicate witness row. -/
def c3Row : ChainlinkPriceRow := { timestamp := 0, token := "USDC", price := 1, deviation_from_1 := 0 }

/-- Claim C3 counterexample: the load step is an append
(`write_pandas` with `overwrite=False`); loading the same one-row data
twice leaves the table with two rows sharing the key `(0, "USDC")`, so the
`(TIMESTAMP, TOKEN)` keys are not duplicate-free, contrary to the claim. -/
theorem C3_counterexample :
    ¬ ((write_pandas_append (write_pandas_append [] [c3Row]) [c3Row]).map
        (fun s => (s.timestamp, s.token))).Nodup := by
  decide

/-- Claim C3 as amended: the load step appends; no existing `(TIMESTAMP,
TOKEN)` row is replaced, and loading the same data twice adds every matching
row twice (the count of any key grows by twice its count in the loaded
rows). -/
theorem C3_append_not_upsert (t rows : List ChainlinkPriceRow) (ts : Int) (tok : String) :
    write_pandas_append t rows = t ++ rows ∧
    (write_pandas_append (write_pandas_append t rows) rows).countP
        (fun s => s.timestamp == ts && s.token == tok) =
      t.countP (fun s => s.timestamp == ts && s.token == tok) +
        2 * rows.countP (fun s => s.timestamp == ts && s.token == tok) := by
  refine ⟨rfl, ?_⟩
  simp only [write_pandas_append, List.countP_append]
  ring

/-- Claim C4 counterexample: for the token filter value `USDC` both dashboard
loaders pass no bound parameter at all (`pd.read_sql` is called with the
query text only), and the token value is embedded in the SQL text (the text
differs between token values). -/
theorem C4_counterexample :
    (load_peg_health_query (some "USDC")).params = [] ∧
    (load_zscore_query (some "USDC")).params = [] ∧
    (load_peg_health_query (some "USDC")).text ≠ (load_peg_health_query (some "USDT")).text := by
  refine ⟨rfl, rfl, ?_⟩
  decide

/-- The tokens of the records collected by the fetch loop are exactly the
configured tokens whose single fetch attempt succeeded, in order. -/
lemma loop_data_tokens (env : FetchEnv) :
    (fetchTokensLoop env TOKEN_SYMBOLS).2.map (fun d => d.token_symbol) =
      TOKEN_SYMBOLS.filter
        (fun t => (fetch_token_price env.now t (env.respOf t)).isSome) := by
  rw [fetchTokensLoop_eq]
  rcases h1 : fetch_token_price env.now "USDC" (env.respOf "USDC") with _ | d1 <;>
    rcases h2 : fetch_token_price env.now "USDT" (env.respOf "USDT") with _ | d2
  · simp [TOKEN_SYMBOLS, h1, h2]
  · simp [TOKEN_SYMBOLS, h1, h2, fetch_token_price_token h2]
  · simp [TOKEN_SYMBOLS, h1, h2, fetch_token_price_token h1]
  · simp [TOKEN_SYMBOLS, h1, h2, fetch_token_price_token h1, fetch_token_price_token h2]

/-- Claim C5: a successful invocation of `fetch_all_chainlink_prices` issues
its contract reads against exactly the two hardcoded feed addresses (USDC
then USDT), and the returned DataFrame has at most two rows, with every
token one of USDC/USDT and no token appearing twice. -/
theorem C5_two_fixed_feeds (env : FetchEnv) (df : List PriceData)
    (h : (fetch_all_run env).2 = Except.ok df) :
    (fetch_all_run env).1 =
      [("USDC", "0x8fFfFfd4AfB6115b954Bd326cbe7B4BA576818f6"),
       ("USDT", "0x3E7d1eAB13ad0104d2750B8863b489D65364e32D")] ∧
    df.length ≤ 2 ∧
    df.map (fun d => d.token_symbol) ⊆ TOKEN_SYMBOLS ∧
    (df.map (fun d => d.token_symbol)).Nodup := by
  have hw : env.web3_ok = true := by
    by_contra hw
    rw [fetch_all_run_conn_eq hw] at h
    exact absurd h (by simp)
  have he : ¬ ((fetchTokensLoop env TOKEN_SYMBOLS).2.isEmpty = true) := by
    intro he
    rw [fetch_all_run_empty_eq hw he] at h
    exact absurd h (by simp)
  have hco := fetch_all_run_ok_eq hw he
  have hdf : df = sortByToken (fetchTokensLoop env TOKEN_SYMBOLS).2 := by
    rw [hco] at h
    exact (Except.ok.inj h).symm
  have hperm : (df.map (fun d => d.token_symbol)).Perm
      ((fetchTokensLoop env TOKEN_SYMBOLS).2.map (fun d => d.token_symbol)) := by
    rw [hdf]
    exact (sortByToken_perm _).map _
  have htok := loop_data_tokens env
  refine ⟨?_, ?_, ?_, ?_⟩
  · rw [hco]
    show (fetchTokensLoop env TOKEN_SYMBOLS).1 = _
    rw [fetchTokensLoop_eq]
  · have hlen := hperm.length_eq
    rw [htok] at hlen
    simp only [List.length_map] at hlen
    calc df.length = _ := hlen
    _ ≤ TOKEN_SYMBOLS.length := List.length_filter_le _ _
    _ = 2 := rfl
  · intro x hx
    have hx2 := hperm.subset hx
    rw [htok] at hx2
    exact List.mem_of_mem_filter hx2
  · rw [hperm.nodup_iff, htok]
    exact List.Nodup.filter _ (by decide)

/-- Environment where both contract reads answer 10^8 at 8 decimals,
decoding to a price of exactly 1. -/
def c5Env : FetchEnv :=
  { web3_ok := true, now := 0, respOf := fun _ => .ok 8 100000000 }

lemma c5_fetch_usdc :
    fetch_token_price c5Env.now "USDC" (c5Env.respOf "USDC") =
      some ⟨0, "USDC", 1, 0⟩ := by
  show fetch_token_price 0 "USDC" (ContractResult.ok 8 100000000) = _
  simp only [fetch_token_price]
  norm_num

lemma c5_fetch_usdt :
    fetch_token_price c5Env.now "USDT" (c5Env.respOf "USDT") =
      some ⟨0, "USDT", 1, 0⟩ := by
  show fetch_token_price 0 "USDT" (ContractResult.ok 8 100000000) = _
  simp only [fetch_token_price]
  norm_num

lemma c5_run :
    (fetch_all_run c5Env).2 =
      Except.ok ([⟨0, "USDC", 1, 0⟩, ⟨0, "USDT", 1, 0⟩] : List PriceData) := by
  have hloop : (fetchTokensLoop c5Env TOKEN_SYMBOLS).2 =
      ([⟨0, "USDC", 1, 0⟩, ⟨0, "USDT", 1, 0⟩] : List PriceData) := by
    rw [show (fetchTokensLoop c5Env TOKEN_SYMBOLS).2 =
        (fetch_token_price c5Env.now "USDC" (c5Env.respOf "USDC")).toList ++
          (fetch_token_price c5Env.now "USDT" (c5Env.respOf "USDT")).toList
      from by rw [fetchTokensLoop_eq]]
    rw [c5_fetch_usdc, c5_fetch_usdt]
    rfl
  have he : ¬ ((fetchTokensLoop c5Env TOKEN_SYMBOLS).2.isEmpty = true) := by
    rw [hloop]
    simp
  rw [fetch_all_run_ok_eq rfl he]
  show Except.ok (sortByToken (fetchTokensLoop c5Env TOKEN_SYMBOLS).2) = _
  rw [hloop]
  have hs : sortByToken ([⟨0, "USDC", 1, 0⟩, ⟨0, "USDT", 1, 0⟩] : List PriceData) =
      ([⟨0, "USDC", 1, 0⟩, ⟨0, "USDT", 1, 0⟩] : List PriceData) := by
    simp [sortByToken, List.insertionSort, List.orderedInsert]
    decide
  rw [hs]

/-- Claim C5 witness: in a concrete environment where both reads succeed,
the invocation reads the two fixed feeds and returns two rows with distinct
tokens. -/
theorem C5_witness :
    (fetch_all_run c5Env).1 =
      [("USDC", "0x8fFfFfd4AfB6115b954Bd326cbe7B4BA576818f6"),
       ("USDT", "0x3E7d1eAB13ad0104d2750B8863b489D65364e32D")] ∧
    ([⟨0, "USDC", 1, 0⟩, ⟨0, "USDT", 1, 0⟩] : List PriceData).length ≤ 2 ∧
    (([⟨0, "USDC", 1, 0⟩, ⟨0, "USDT", 1, 0⟩] : List PriceData).map
      (fun d => d.token_symbol)).Nodup := by
  have h := C5_two_fixed_feeds c5Env [⟨0, "USDC", 1, 0⟩, ⟨0, "USDT", 1, 0⟩] c5_run
  exact ⟨h.1, h.2.1, h.2.2.2⟩

/-- Claim C6: within one invocation (with a working connection) each
configured token is attempted exactly once — the contract-read log has
exactly the token list, in order — and the collected records are exactly
those of the tokens whose single attempt succeeded: a failed fetch records
nothing for that token and the loop moves on with no retry. -/
theorem C6_single_attempt_per_token (env : FetchEnv) (hw : env.web3_ok = true) :
    (fetch_all_run env).1.map Prod.fst = TOKEN_SYMBOLS ∧
    (fetchTokensLoop env TOKEN_SYMBOLS).2.map (fun d => d.token_symbol) =
      TOKEN_SYMBOLS.filter
        (fun t => (fetch_token_price env.now t (env.respOf t)).isSome) := by
  constructor
  · have hcalls : (fetch_all_run env).1 = (fetchTokensLoop env TOKEN_SYMBOLS).1 := by
      by_cases he : (fetchTokensLoop env TOKEN_SYMBOLS).2.isEmpty
      · rw [fetch_all_run_empty_eq hw he]
      · rw [fetch_all_run_ok_eq hw he]
    rw [hcalls, fetchTokensLoop_eq]
    rfl
  · exact loop_data_tokens env

/-- Environment where the USDC read fails and the USDT read succeeds. -/
def c6Env : FetchEnv :=
  { web3_ok := true, now := 0,
    respOf := fun t => if t == "USDT" then .ok 8 100000000 else .err }

/-- Claim C6 witness: with the USDC read failing, both tokens are still
attempted exactly once and only the USDT record is collected. -/
theorem C6_witness :
    (fetch_all_run c6Env).1.map Prod.fst = ["USDC", "USDT"] ∧
    (fetchTokensLoop c6Env TOKEN_SYMBOLS).2.map (fun d => d.token_symbol) =
      ["USDT"] := by
  have h := C6_single_attempt_per_token c6Env rfl
  refine ⟨h.1, ?_⟩
  rw [h.2]
  have hU : fetch_token_price c6Env.now "USDC" (c6Env.respOf "USDC") = none := rfl
  have hT : fetch_token_price c6Env.now "USDT" (c6Env.respOf "USDT") =
      some ⟨0, "USDT", 1, 0⟩ := by
    show fetch_token_price 0 "USDT" (ContractResult.ok 8 100000000) = _
    simp only [fetch_token_price]
    norm_num
  simp [TOKEN_SYMBOLS, hU, hT]

/-- Claim C8: `fetch_all_chainlink_prices` either raises (the connection
error, or the RuntimeError when no token could be fetched) or returns a
non-empty DataFrame sorted ascending by token_symbol (its columns are the
`PriceData` fields, in order); consequently the `df.empty` branch of
`fetch_chainlink_price_op` can never produce its "empty" Output. -/
theorem C8_fetch_all_result_shape (env : FetchEnv) (w : Bool) :
    ((env.web3_ok = false ∧ (fetch_all_run env).2 = .error .connError) ∨
     ((fetchTokensLoop env TOKEN_SYMBOLS).2 = [] ∧
       (fetch_all_run env).2 = .error .runtimeError) ∨
     ∃ df, (fetch_all_run env).2 = .ok df ∧ df ≠ [] ∧
       List.Sorted (fun a b : PriceData => a.token_symbol ≤ b.token_symbol) df) ∧
    fetch_chainlink_price_op env w ≠ .emptyOut := by
  constructor
  · by_cases hw : env.web3_ok
    · by_cases he : (fetchTokensLoop env TOKEN_SYMBOLS).2.isEmpty
      · right; left
        refine ⟨List.isEmpty_iff.mp he, ?_⟩
        rw [fetch_all_run_empty_eq hw he]
      · right; right
        have hco := fetch_all_run_ok_eq hw he
        have hok : (fetch_all_run env).2 =
            .ok (sortByToken (fetchTokensLoop env TOKEN_SYMBOLS).2) := by
          rw [hco]
        haveI : IsTotal PriceData (fun a b => a.token_symbol ≤ b.token_symbol) :=
          ⟨fun a b => le_total _ _⟩
        haveI : IsTrans PriceData (fun a b => a.token_symbol ≤ b.token_symbol) :=
          ⟨fun _ _ _ hab hbc => le_trans hab hbc⟩
        exact ⟨_, hok, fetch_ok_ne_nil hok,
          List.sorted_insertionSort _ _⟩
    · left
      refine ⟨Bool.not_eq_true _ ▸ hw, ?_⟩
      rw [fetch_all_run_conn_eq hw]
  · intro hop
    unfold fetch_chainlink_price_op at hop
    cases hfa : (fetch_all_run env).2 with
    | error e =>
      rw [hfa] at hop
      simp at hop
    | ok df =>
      rw [hfa] at hop
      have hne := fetch_ok_ne_nil hfa
      cases df with
      | nil => exact hne rfl
      | cons d rest =>
        simp only [List.isEmpty_cons] at hop
        cases w <;> simp at hop

lemma odiv_none (a : SqlVal) : odiv a none = none := by cases a <;> rfl

lemma nullif_none (c : ℚ) : nullif none c = none := rfl

lemma nullif_some_self (c : ℚ) : nullif (some c) c = none := by simp [nullif]

lemma nullif_some_of_ne {a c : ℚ} (h : a ≠ c) : nullif (some a) c = some a := by
  simp [nullif, h]

lemma filter_and {α : Type} (l : List α) (p q : α → Bool) :
    (l.filter p).filter q = l.filter (fun a => p a && q a) := by
  induction l with
  | nil => rfl
  | cons a t ih =>
    by_cases hp : p a <;> by_cases hq : q a <;>
      simp [List.filter_cons, hp, hq, ih]

/-- The partition-then-frame filter of the windowing engine coincides with a
single filter over the view: same TOKEN and TIMESTAMP within the range. -/
lemma rangeFrame_eq (peg : List PegHealthRow) (tok : String) (t : Int) :
    rangeFrame (tokenPartition peg tok) t =
      peg.filter (fun h => (h.token == tok) &&
        (decide (t - 86400 ≤ h.timestamp) && decide (h.timestamp ≤ t))) := by
  unfold rangeFrame tokenPartition
  rw [filter_and]

lemma zscoreRowOf_mean (sq : ℚ → ℚ) (peg : List PegHealthRow) (p : PegHealthRow) :
    (zscoreRowOf sq peg p).rolling_mean_24h =
      sqlAvg ((rangeFrame (tokenPartition peg p.token) p.timestamp).map
        (fun s => s.deviation_from_peg)) := rfl

lemma zscoreRowOf_sd (sq : ℚ → ℚ) (peg : List PegHealthRow) (p : PegHealthRow) :
    (zscoreRowOf sq peg p).rolling_stddev_24h =
      sqlStddev sq ((rangeFrame (tokenPartition peg p.token) p.timestamp).map
        (fun s => s.deviation_from_peg)) := rfl

lemma zscoreRowOf_zscore (sq : ℚ → ℚ) (peg : List PegHealthRow) (p : PegHealthRow) :
    (zscoreRowOf sq peg p).zscore =
      (if ogt ((zscoreRowOf sq peg p).rolling_stddev_24h) 0 then
        odiv (osub (some p.deviation_from_peg) ((zscoreRowOf sq peg p).rolling_mean_24h))
          ((zscoreRowOf sq peg p).rolling_stddev_24h)
       else some 0) := rfl

lemma zscoreRowOf_status (sq : ℚ → ℚ) (peg : List PegHealthRow) (p : PegHealthRow) :
    (zscoreRowOf sq peg p).zscore_status =
      (if ogt (oabs (odiv
            (osub (some p.deviation_from_peg) ((zscoreRowOf sq peg p).rolling_mean_24h))
            (nullif ((zscoreRowOf sq peg p).rolling_stddev_24h) 0))) 2 then "outlier"
       else if ogt (oabs (odiv
            (osub (some p.deviation_from_peg) ((zscoreRowOf sq peg p).rolling_mean_24h))
            (nullif ((zscoreRowOf sq peg p).rolling_stddev_24h) 0))) 1 then "unusual"
       else "normal") := rfl

lemma zscoreRowOf_dev (sq : ℚ → ℚ) (peg : List PegHealthRow) (p : PegHealthRow) :
    (zscoreRowOf sq peg p).deviation_from_peg = p.deviation_from_peg := rfl

/-- Every view row belongs to its own window frame: the frame that the
windowing engine evaluates at a row always contains that row. -/
lemma mem_own_frame {peg : List PegHealthRow} {p : PegHealthRow} (hp : p ∈ peg) :
    p ∈ rangeFrame (tokenPartition peg p.token) p.timestamp := by
  rw [rangeFrame_eq]
  refine List.mem_filter.2 ⟨hp, ?_⟩
  simp only [beq_self_eq_true, Bool.true_and, Bool.and_eq_true, decide_eq_true_eq]
  omega

/-- The rolling mean of a row of the z-score table is never NULL: its frame
contains the row itself. -/
lemma zscoreRowOf_mean_isSome {sq : ℚ → ℚ} {peg : List PegHealthRow} {p : PegHealthRow}
    (hp : p ∈ peg) :
    ∃ m, (zscoreRowOf sq peg p).rolling_mean_24h = some m := by
  rw [zscoreRowOf_mean]
  have hne : ((rangeFrame (tokenPartition peg p.token) p.timestamp).map
      (fun s => s.deviation_from_peg)).length ≠ 0 := by
    simp only [List.length_map]
    exact Nat.pos_iff_ne_zero.mp
      (List.length_pos.mpr (List.ne_nil_of_mem (mem_own_frame hp)))
  unfold sqlAvg
  rw [if_neg hne]
  exact ⟨_, rfl⟩

/-- Claim C1: for every row of `stablecoin_peg_zscore`, ROLLING_MEAN_24H and
ROLLING_STDDEV_24H are the mean and (sample) standard deviation of
DEVIATION_FROM_PEG over exactly the view rows with the same TOKEN whose
TIMESTAMP lies in `[TIMESTAMP - 86400, TIMESTAMP]` (the current row
included), and whenever ROLLING_STDDEV_24H > 0,
ZSCORE = (DEVIATION_FROM_PEG - ROLLING_MEAN_24H) / ROLLING_STDDEV_24H. -/
theorem C1_rolling_window (sq : ℚ → ℚ) (table : List ChainlinkPriceRow) (r : ZscoreRow)
    (hr : r ∈ stablecoin_peg_zscore sq table) :
    r.rolling_mean_24h = sqlAvg (pegWindowDevs table r.token r.timestamp) ∧
    r.rolling_stddev_24h = sqlStddev sq (pegWindowDevs table r.token r.timestamp) ∧
    ∀ m s, r.rolling_mean_24h = some m → r.rolling_stddev_24h = some s → 0 < s →
      r.zscore = some ((r.deviation_from_peg - m) / s) := by
  obtain ⟨p, hp, rfl⟩ := mem_zscore hr
  have htok : (zscoreRowOf sq (stablecoin_peg_health table) p).token = p.token := rfl
  have hts : (zscoreRowOf sq (stablecoin_peg_health table) p).timestamp = p.timestamp := rfl
  have hdevs : (rangeFrame (tokenPartition (stablecoin_peg_health table) p.token)
        p.timestamp).map (fun s => s.deviation_from_peg) =
      pegWindowDevs table p.token p.timestamp := by
    rw [pegWindowDevs, rangeFrame_eq]
  rw [htok, hts]
  refine ⟨?_, ?_, ?_⟩
  · rw [zscoreRowOf_mean, hdevs]
  · rw [zscoreRowOf_sd, hdevs]
  · intro m s hm hs hpos
    rw [zscoreRowOf_zscore, hm, hs, zscoreRowOf_dev,
      if_pos (show ogt (some s) 0 = true by simp [ogt, hpos])]
    rfl

/-- Claim C10: for every row of `stablecoin_peg_zscore`, when
ROLLING_STDDEV_24H is NULL or 0 the division is guarded: ZSCORE is 0 and
ZSCORE_STATUS is `normal`; when ROLLING_STDDEV_24H > 0, ZSCORE_STATUS is
`outlier` iff `|ZSCORE| > 2` and `unusual` iff `1 < |ZSCORE| <= 2`. -/
theorem C10_zscore_guard (sq : ℚ → ℚ) (table : List ChainlinkPriceRow) (r : ZscoreRow)
    (hr : r ∈ stablecoin_peg_zscore sq table) :
    ((r.rolling_stddev_24h = none ∨ r.rolling_stddev_24h = some 0) →
      r.zscore = some 0 ∧ r.zscore_status = "normal") ∧
    (∀ s, r.rolling_stddev_24h = some s → 0 < s →
      ∃ z, r.zscore = some z ∧
        (r.zscore_status = "outlier" ↔ 2 < |z|) ∧
        (r.zscore_status = "unusual" ↔ 1 < |z| ∧ |z| ≤ 2)) := by
  obtain ⟨p, hp, rfl⟩ := mem_zscore hr
  obtain ⟨m, hm⟩ := @zscoreRowOf_mean_isSome sq (stablecoin_peg_health table) p hp
  constructor
  · rintro (hsd | hsd)
    · constructor
      · rw [zscoreRowOf_zscore, hsd]
        simp [ogt]
      · rw [zscoreRowOf_status, hsd, nullif_none, odiv_none]
        simp [oabs, ogt]
    · constructor
      · rw [zscoreRowOf_zscore, hsd]
        simp [ogt]
      · rw [zscoreRowOf_status, hsd, nullif_some_self, odiv_none]
        simp [oabs, ogt]
  · intro s hsd hpos
    rw [zscoreRowOf_zscore, zscoreRowOf_status, hsd, hm,
      nullif_some_of_ne (ne_of_gt hpos)]
    rw [if_pos (show ogt (some s) 0 = true by simp [ogt, hpos])]
    refine ⟨(p.deviation_from_peg - m) / s, rfl, ?_, ?_⟩ <;>
      show (if ogt (oabs (odiv (osub (some p.deviation_from_peg) (some m)) (some s))) 2
          then "outlier"
          else if ogt (oabs (odiv (osub (some p.deviation_from_peg) (some m)) (some s))) 1
          then "unusual" else "normal") = _ ↔ _ <;>
      rw [show oabs (odiv (osub (some p.deviation_from_peg) (some m)) (some s)) =
        some |(p.deviation_from_peg - m) / s| from rfl] <;>
      by_cases h2 : 2 < |(p.deviation_from_peg - m) / s| <;>
      by_cases h1 : 1 < |(p.deviation_from_peg - m) / s| <;>
      simp [ogt, h1, h2] <;>
      first
        | exact fun hc => absurd h2 (not_lt.mpr hc.2)
        | linarith

/-- A two-sample table for one token, 100 seconds apart (well within the
24-hour window): deviations 0 and 1/500. -/
def wT1 : List ChainlinkPriceRow :=
  [⟨0, "USDC", 1, 0⟩, ⟨100, "USDC", 501/500, 1/500⟩]

/-- The z-score row the pipeline computes for the second sample of `wT1`. -/
def wR1 : ZscoreRow :=
  zscoreRowOf id (stablecoin_peg_health wT1) (pegHealthRow ⟨100, "USDC", 501/500, 1/500⟩)

lemma wR1_mem : wR1 ∈ stablecoin_peg_zscore id wT1 :=
  List.mem_cons_of_mem _ (List.mem_singleton.mpr rfl)

lemma wR1_mean : wR1.rolling_mean_24h = some (1/1000 : ℚ) := by
  show (zscoreRowOf id (stablecoin_peg_health wT1)
    (pegHealthRow ⟨100, "USDC", 501/500, 1/500⟩)).rolling_mean_24h = _
  rw [zscoreRowOf_mean]
  norm_num [stablecoin_peg_health, wT1, pegHealthRow, rangeFrame, tokenPartition,
    List.filter, sqlAvg, qsum]

lemma wR1_sd : wR1.rolling_stddev_24h = some (1/500000 : ℚ) := by
  show (zscoreRowOf id (stablecoin_peg_health wT1)
    (pegHealthRow ⟨100, "USDC", 501/500, 1/500⟩)).rolling_stddev_24h = _
  rw [zscoreRowOf_sd]
  norm_num [stablecoin_peg_health, wT1, pegHealthRow, rangeFrame, tokenPartition,
    List.filter, sqlStddev, qsum]

/-- Claim C1 witness: on the concrete table `wT1` the rolling
aggregates of the second row equal the window aggregates, and its z-score evaluates to 500
through the formula `(DEVIATION_FROM_PEG - MEAN) / STDDEV`. -/
theorem C1_witness :
    wR1.rolling_mean_24h = sqlAvg (pegWindowDevs wT1 wR1.token wR1.timestamp) ∧
    wR1.rolling_stddev_24h = sqlStddev id (pegWindowDevs wT1 wR1.token wR1.timestamp) ∧
    wR1.zscore = some 500 := by
  have h := C1_rolling_window id wT1 wR1 wR1_mem
  refine ⟨h.1, h.2.1, ?_⟩
  have hz := h.2.2 (1/1000) (1/500000) wR1_mean wR1_sd (by norm_num)
  rw [hz, show wR1.deviation_from_peg = (1/500 : ℚ) by
    show (pegHealthRow ⟨100, "USDC", 501/500, 1/500⟩).deviation_from_peg = _
    show (501/500 : ℚ) - 1 = _
    norm_num]
  norm_num

/-- The z-score row the pipeline computes for the single sample of a
one-row table, whose 24-hour frame holds only that row, so the rolling
standard deviation is NULL. -/
def wR0 : ZscoreRow :=
  zscoreRowOf id (stablecoin_peg_health [⟨0, "USDC", 1, 0⟩]) (pegHealthRow ⟨0, "USDC", 1, 0⟩)

/-- Claim C10 witness: the first (and only) sample of a token has a NULL
rolling stddev, and the pipeline guards the division: its ZSCORE is 0 and
its ZSCORE_STATUS is `normal`. -/
theorem C10_witness : wR0.zscore = some 0 ∧ wR0.zscore_status = "normal" := by
  have hmem : wR0 ∈ stablecoin_peg_zscore id [⟨0, "USDC", 1, 0⟩] :=
    List.mem_singleton.mpr rfl
  exact (C10_zscore_guard id [⟨0, "USDC", 1, 0⟩] wR0 hmem).1 (Or.inl rfl)

/-- Claim C7: `load_real_chainlink_data` performs fetch, then normalize
(`token_symbol` to `TOKEN`, `deviation_from_peg` to `DEVIATION_FROM_1`),
then store, then derive: the derived view and z-score table are recreated
exactly when `write_pandas` reports success, and a failed write (or a fetch
exception) leaves the warehouse table unchanged and nothing derived. -/
theorem C7_pipeline_order (env : FetchEnv) (wh : List ChainlinkPriceRow) (writeOk : Bool) :
    (∃ e, (fetch_all_run env).2 = Except.error e ∧
      load_real_chainlink_data env wh writeOk = ([], wh, false)) ∨
    (∃ df, (fetch_all_run env).2 = Except.ok df ∧ df ≠ [] ∧
      ((writeOk = false ∧
          load_real_chainlink_data env wh writeOk =
            ([LoadEvent.fetch, LoadEvent.normalize, LoadEvent.store false], wh, false)) ∨
       (writeOk = true ∧
          load_real_chainlink_data env wh writeOk =
            ([LoadEvent.fetch, LoadEvent.normalize, LoadEvent.store true,
              LoadEvent.deriveViews],
             write_pandas_append wh (df.map normalizeRow), true)))) := by
  cases hfa : (fetch_all_run env).2 with
  | error e =>
    left
    refine ⟨e, rfl, ?_⟩
    unfold load_real_chainlink_data
    rw [hfa]
  | ok df =>
    right
    have hne := fetch_ok_ne_nil hfa
    refine ⟨df, rfl, hne, ?_⟩
    have hemp : df.isEmpty = false := by
      cases df
      · exact absurd rfl hne
      · rfl
    cases writeOk with
    | false =>
      left
      refine ⟨rfl, ?_⟩
      unfold load_real_chainlink_data
      rw [hfa]
      simp [hemp]
    | true =>
      right
      refine ⟨rfl, ?_⟩
      unfold load_real_chainlink_data
      rw [hfa]
      simp [hemp]

/-- Claim C4 as amended: for every token filter value, the queries built by
`load_peg_health_data` and `load_zscore_data` embed the token string
directly into the SQL text via an f-string and pass no bound query
parameters to the warehouse. -/
theorem C4_token_embedded_in_text (t : String) :
    (load_peg_health_query (some t)).params = [] ∧
    (load_zscore_query (some t)).params = [] ∧
    (load_peg_health_query (some t)).text =
      pegHealthSelect ++ (" WHERE TOKEN = \x27" ++ t ++ "\x27") ++
        " ORDER BY TIMESTAMP DESC LIMIT 1000" ∧
    (load_zscore_query (some t)).text =
      zscoreSelect ++ (" WHERE TOKEN = \x27" ++ t ++ "\x27") ++
        " ORDER BY TIMESTAMP DESC LIMIT 5000" :=
  ⟨rfl, rfl, rfl, rfl⟩
